import Mathlib

/-!
# Verification of the BMS requirement tool calculators

A shallow embedding of the two calculation pipelines of the BMS requirement
tool (`bms_calculator.py` and `adv_calculator.py`) over exact rationals,
together with theorems settling the specification claims about them.

Modelling conventions:
* Python floats are modelled as `ℚ` (exact arithmetic); every numeric value
  occurring in the claims is decimal and far from rounding ties, where the
  two representations agree.
* `round(x, 2)` / `round(x, 3)` are modelled by `round2` / `round3` below
  (round to nearest, 2 resp. 3 decimal places).
* String rendering of numbers (Python float `repr` inside f-strings) is
  abstracted by `fmt : ℚ → String`; no claim depends on the exact decimal
  spelling of a number inside a rendered string.
* The JSON serialization round-trip `json.loads(json.dumps(data))` performed
  by `calculate_api` is modelled as the identity on the data record; the
  rendered JSON text itself is modelled by `snippet_json_text` (field order
  and embedded values as in the source; the surrounding JSON punctuation is
  elided, since no claim inspects it).
-/

namespace BMS

/-- Model of Python `round(x, 2)`: round to the nearest multiple of 1/100. -/
def round2 (x : ℚ) : ℚ := (round (100 * x) : ℤ) / 100

/-- Model of Python `round(x, 3)`: round to the nearest multiple of 1/1000. -/
def round3 (x : ℚ) : ℚ := (round (1000 * x) : ℤ) / 1000

/-- Numeric-to-text rendering used inside f-strings; the exact decimal
spelling is irrelevant to every claim, so `Rat`'s `toString` is used. -/
def fmt (q : ℚ) : String := toString q

/-- Model of the Python `{x*100:.0f}` percent rendering in the Markdown
SOC-window line. -/
def fmt_pct (q : ℚ) : String := toString (round (100 * q))

/-! ## Basic (two-case) pipeline: `bms_calculator.py` -/

/-- `MissionInputs` dataclass: user-supplied mission parameters. -/
structure MissionInputs where
  orbital_period_min : ℚ
  eclipse_duration_min : ℚ
  average_payload_power_W : ℚ
  nominal_battery_voltage_V : ℚ

/-- `MissionCaseConfig` dataclass: config for one mission class. -/
structure MissionCaseConfig where
  name : String
  description : String
  capacity_margin : ℚ
  soc_min_end_of_eclipse : ℚ
  soc_max_charge : ℚ
  reserve_fraction : ℚ

/-- The `SHORT_LIVED_HIGH_POWER` module constant. -/
def SHORT_LIVED_HIGH_POWER : MissionCaseConfig :=
  { name := "short_lived_high_power"
    description := "Short-lived, high-power (e.g. LEO, high DOD acceptable)"
    capacity_margin := 11/10
    soc_min_end_of_eclipse := 20/100
    soc_max_charge := 1
    reserve_fraction := 10/100 }

/-- The `LONG_LIVED_LOW_POWER` module constant. -/
def LONG_LIVED_LOW_POWER : MissionCaseConfig :=
  { name := "long_lived_low_power"
    description := "Long-lived, low-power (e.g. GEO, conservative for life)"
    capacity_margin := 12/10
    soc_min_end_of_eclipse := 30/100
    soc_max_charge := 90/100
    reserve_fraction := 25/100 }

/-- `energy_during_eclipse_Wh(P_W, t_eclipse_min)`: `P_W * (t_eclipse_min / 60.0)`. -/
def energy_during_eclipse_Wh (P_W t_eclipse_min : ℚ) : ℚ :=
  P_W * (t_eclipse_min / 60)

/-- `required_usable_capacity_Wh(E_eclipse_Wh, margin, reserve_fraction)`:
returns `E_eclipse_Wh * margin`; the `reserve_fraction` parameter is accepted
but never used in the body. -/
def required_usable_capacity_Wh (E_eclipse_Wh margin reserve_fraction : ℚ) : ℚ :=
  E_eclipse_Wh * margin

/-- `required_usable_capacity_Ah(C_Wh, V_nom)`:
`C_Wh / V_nom if V_nom > 0 else 0.0`. -/
def required_usable_capacity_Ah (C_Wh V_nom : ℚ) : ℚ :=
  if V_nom > 0 then C_Wh / V_nom else 0

/-- `average_c_rate_during_eclipse(P_W, V_nom, C_usable_Ah)`: returns 0 when
`C_usable_Ah <= 0 or V_nom <= 0`, else `(P_W / V_nom) / C_usable_Ah`. -/
def average_c_rate_during_eclipse (P_W V_nom C_usable_Ah : ℚ) : ℚ :=
  if C_usable_Ah ≤ 0 ∨ V_nom ≤ 0 then 0 else (P_W / V_nom) / C_usable_Ah

/-- The `soc_window` dict built in `build_snippet`. -/
structure SocWindow where
  min : ℚ
  max : ℚ
  min_end_of_eclipse : ℚ

/-- The `margin_reserve` dict built in `build_snippet`. -/
structure MarginReserve where
  capacity_margin : ℚ
  reserve_fraction : ℚ

/-- The `data` dict built in `build_snippet` (the structure that is JSON
serialized and whose parse is returned by `calculate_api`). -/
structure SnippetData where
  case_name : String
  case_description : String
  inputs : MissionInputs
  required_usable_capacity_Wh : ℚ
  required_usable_capacity_Ah : ℚ
  average_c_rate_during_eclipse : ℚ
  soc_operating_window : SocWindow
  margin_and_reserve : MarginReserve
  eclipse_energy_Wh : ℚ

/-- The numeric/record part of `build_snippet`: composes
`energy_during_eclipse_Wh`, `required_usable_capacity_Wh`,
`required_usable_capacity_Ah` and `average_c_rate_during_eclipse` in source
order and rounds every numeric output field exactly as the `data` dict in the
source does. -/
def snippet_data (inp : MissionInputs) (config : MissionCaseConfig) : SnippetData :=
  let E_eclipse := energy_during_eclipse_Wh inp.average_payload_power_W inp.eclipse_duration_min
  let C_Wh := required_usable_capacity_Wh E_eclipse config.capacity_margin config.reserve_fraction
  let C_Ah := required_usable_capacity_Ah C_Wh inp.nominal_battery_voltage_V
  let C_rate := average_c_rate_during_eclipse inp.average_payload_power_W
    inp.nominal_battery_voltage_V C_Ah
  { case_name := config.name
    case_description := config.description
    inputs := inp
    required_usable_capacity_Wh := round2 C_Wh
    required_usable_capacity_Ah := round2 C_Ah
    average_c_rate_during_eclipse := round3 C_rate
    soc_operating_window :=
      { min := config.soc_min_end_of_eclipse
        max := config.soc_max_charge
        min_end_of_eclipse := config.soc_min_end_of_eclipse }
    margin_and_reserve :=
      { capacity_margin := config.capacity_margin
        reserve_fraction := config.reserve_fraction }
    eclipse_energy_Wh := round2 E_eclipse }

/-- `format_markdown(data)`: the Markdown rendering of a snippet. -/
def format_markdown (data : SnippetData) : String :=
  String.intercalate "\n" [
    "## BMS requirement snippet: " ++ data.case_name,
    "",
    "*" ++ data.case_description ++ "*",
    "",
    "### Inputs",
    "- Orbital period: " ++ fmt data.inputs.orbital_period_min ++ " min",
    "- Eclipse duration: " ++ fmt data.inputs.eclipse_duration_min ++ " min",
    "- Average payload power: " ++ fmt data.inputs.average_payload_power_W ++ " W",
    "- Nominal battery voltage: " ++ fmt data.inputs.nominal_battery_voltage_V ++ " V",
    "",
    "### Derived requirements",
    "- **Required usable capacity:** " ++ fmt data.required_usable_capacity_Wh ++
      " Wh (" ++ fmt data.required_usable_capacity_Ah ++ " Ah)",
    "- **Average C-rate during eclipse:** " ++ fmt data.average_c_rate_during_eclipse ++ " C",
    "- **SOC operating window:** " ++ fmt_pct data.soc_operating_window.min ++
      "% (min, EOE) to " ++ fmt_pct data.soc_operating_window.max ++ "% (max, EOC)",
    "- **Eclipse energy:** " ++ fmt data.eclipse_energy_Wh ++ " Wh",
    "",
    "### Margin / reserve",
    "- Capacity margin: " ++ fmt data.margin_and_reserve.capacity_margin,
    "- Reserve fraction: " ++ fmt data.margin_and_reserve.reserve_fraction ]

/-- The structured-serialization text of a snippet (`json.dumps(data, indent=2)`):
field order and embedded values as in the source; surrounding JSON punctuation
is elided since no claim inspects it. -/
def snippet_json_text (data : SnippetData) : String :=
  String.intercalate "\n" [
    "  \"case_name\": \"" ++ data.case_name ++ "\",",
    "  \"case_description\": \"" ++ data.case_description ++ "\",",
    "  \"inputs\": orbital_period_min " ++ fmt data.inputs.orbital_period_min ++
      ", eclipse_duration_min " ++ fmt data.inputs.eclipse_duration_min ++
      ", average_payload_power_W " ++ fmt data.inputs.average_payload_power_W ++
      ", nominal_battery_voltage_V " ++ fmt data.inputs.nominal_battery_voltage_V ++ ",",
    "  \"required_usable_capacity_Wh\": " ++ fmt data.required_usable_capacity_Wh ++ ",",
    "  \"required_usable_capacity_Ah\": " ++ fmt data.required_usable_capacity_Ah ++ ",",
    "  \"average_c_rate_during_eclipse\": " ++ fmt data.average_c_rate_during_eclipse ++ ",",
    "  \"soc_operating_window\": min " ++ fmt data.soc_operating_window.min ++
      ", max " ++ fmt data.soc_operating_window.max ++
      ", min_end_of_eclipse " ++ fmt data.soc_operating_window.min_end_of_eclipse ++ ",",
    "  \"margin_and_reserve\": capacity_margin " ++ fmt data.margin_and_reserve.capacity_margin ++
      ", reserve_fraction " ++ fmt data.margin_and_reserve.reserve_fraction ++ ",",
    "  \"eclipse_energy_Wh\": " ++ fmt data.eclipse_energy_Wh ]

/-- `BMSRequirementSnippet` dataclass: computed snippet for one mission case. -/
structure BMSRequirementSnippet where
  case_name : String
  case_description : String
  inputs : MissionInputs
  required_usable_capacity_Wh : ℚ
  required_usable_capacity_Ah : ℚ
  average_c_rate_during_eclipse : ℚ
  soc_operating_window : SocWindow
  margin_and_reserve : MarginReserve
  snippet_md : String
  snippet_json : String

/-- `build_snippet(inp, config)`: builds the snippet for one mission case; the
record fields carry the same rounded values as the `data` dict, plus the two
rendered text forms. -/
def build_snippet (inp : MissionInputs) (config : MissionCaseConfig) : BMSRequirementSnippet :=
  let data := snippet_data inp config
  { case_name := data.case_name
    case_description := data.case_description
    inputs := data.inputs
    required_usable_capacity_Wh := data.required_usable_capacity_Wh
    required_usable_capacity_Ah := data.required_usable_capacity_Ah
    average_c_rate_during_eclipse := data.average_c_rate_during_eclipse
    soc_operating_window := data.soc_operating_window
    margin_and_reserve := data.margin_and_reserve
    snippet_md := format_markdown data
    snippet_json := snippet_json_text data }

/-- One entry of the dict returned by `calculate_api`:
`json.loads(snippet.snippet_json)` (modelled as the `data` record itself, the
serialization round-trip being the identity) with the `snippet_md` text added. -/
structure ApiSnippet where
  data : SnippetData
  snippet_md : String

/-- The dict returned by `calculate_api`: `{"short": ..., "long": ...}`. -/
structure ApiResult where
  short : ApiSnippet
  long : ApiSnippet

/-- `calculate_api(orbital_period_min, eclipse_duration_min,
average_payload_power_W, nominal_battery_voltage_V)`: runs `build_snippet`
once for each of the two fixed configurations. -/
def calculate_api (orbital_period_min eclipse_duration_min average_payload_power_W
    nominal_battery_voltage_V : ℚ) : ApiResult :=
  let inp : MissionInputs :=
    { orbital_period_min := orbital_period_min
      eclipse_duration_min := eclipse_duration_min
      average_payload_power_W := average_payload_power_W
      nominal_battery_voltage_V := nominal_battery_voltage_V }
  let short := build_snippet inp SHORT_LIVED_HIGH_POWER
  let long := build_snippet inp LONG_LIVED_LOW_POWER
  { short := { data := snippet_data inp SHORT_LIVED_HIGH_POWER, snippet_md := short.snippet_md }
    long := { data := snippet_data inp LONG_LIVED_LOW_POWER, snippet_md := long.snippet_md } }

/-! ## Advanced (multi-factor) pipeline: `adv_calculator.py` -/

/-- `capacity_after_pack_loss_wh(capacity_wh, pack_loss_pct)`. -/
def capacity_after_pack_loss_wh (capacity_wh pack_loss_pct : ℚ) : ℚ :=
  capacity_wh * (1 - pack_loss_pct / 100)

/-- `capacity_after_divergence_wh(capacity_wh, divergence_pct)`. -/
def capacity_after_divergence_wh (capacity_wh divergence_pct : ℚ) : ℚ :=
  capacity_wh * (1 - divergence_pct / 100)

/-- `capacity_after_redundancy_wh(capacity_wh, redundancy_n)`. -/
def capacity_after_redundancy_wh (capacity_wh redundancy_n : ℚ) : ℚ :=
  capacity_wh * (1 + redundancy_n)

/-- `capacity_after_ageing_wh(capacity_wh, ageing_pct)`. -/
def capacity_after_ageing_wh (capacity_wh ageing_pct : ℚ) : ℚ :=
  capacity_wh * (1 - ageing_pct / 100)

/-- `capacity_after_temp_wh(capacity_wh, temp_pct)`. -/
def capacity_after_temp_wh (capacity_wh temp_pct : ℚ) : ℚ :=
  capacity_wh * (1 - temp_pct / 100)

/-- `effective_capacity_after_anomaly_wh(capacity_wh, anomaly_reserve_wh)`:
`max(0.0, capacity_wh - anomaly_reserve_wh)`. -/
def effective_capacity_after_anomaly_wh (capacity_wh anomaly_reserve_wh : ℚ) : ℚ :=
  max 0 (capacity_wh - anomaly_reserve_wh)

/-- The dict returned by `sizing_summary`. -/
structure SizingSummary where
  base_capacity_Wh : ℚ
  after_pack_loss_Wh : ℚ
  after_divergence_Wh : ℚ
  after_redundancy_Wh : ℚ
  after_ageing_Wh : ℚ
  after_temp_Wh : ℚ
  anomaly_reserve_Wh : ℚ
  effective_capacity_Wh : ℚ
  effective_capacity_Ah : ℚ

/-- `sizing_summary(base_capacity_wh, v_nom, pack_loss_pct, divergence_pct,
redundancy_n, ageing_pct, temp_pct, anomaly_wh)`: applies each term in order;
the unrounded value of each step is passed to the next step, and each reported
field is rounded to 2 decimals. -/
def sizing_summary (base_capacity_wh v_nom pack_loss_pct divergence_pct
    redundancy_n ageing_pct temp_pct anomaly_wh : ℚ) : SizingSummary :=
  let after_pack := capacity_after_pack_loss_wh base_capacity_wh pack_loss_pct
  let after_div := capacity_after_divergence_wh after_pack divergence_pct
  let after_red := capacity_after_redundancy_wh after_div redundancy_n
  let after_age := capacity_after_ageing_wh after_red ageing_pct
  let after_temp := capacity_after_temp_wh after_age temp_pct
  let effective_wh := effective_capacity_after_anomaly_wh after_temp anomaly_wh
  let effective_ah := if v_nom > 0 then effective_wh / v_nom else 0
  { base_capacity_Wh := round2 base_capacity_wh
    after_pack_loss_Wh := round2 after_pack
    after_divergence_Wh := round2 after_div
    after_redundancy_Wh := round2 after_red
    after_ageing_Wh := round2 after_age
    after_temp_Wh := round2 after_temp
    anomaly_reserve_Wh := round2 anomaly_wh
    effective_capacity_Wh := round2 effective_wh
    effective_capacity_Ah := round2 effective_ah }

/-- The dict returned by `cell_level_outputs`. -/
structure CellLevel where
  cell_capacity_Ah : ℚ
  series : ℤ
  parallel : ℤ
  total_cells : ℤ
  string_config : String
  pack_capacity_Ah : ℚ
  eol_factor : ℚ

/-- `cell_level_outputs(effective_capacity_ah, cell_ah, series, parallel,
eol_factor)`: `series` and `parallel` are floored at 1 (`max(1, int(...))`;
the arguments are already integers, so `int()` is the identity);
`effective_capacity_ah` is accepted but never used in the body. -/
def cell_level_outputs (effective_capacity_ah cell_ah : ℚ) (series parallel : ℤ)
    (eol_factor : ℚ) : CellLevel :=
  let series := max 1 series
  let parallel := max 1 parallel
  let total_cells := series * parallel
  let string_config := toString series ++ "s × " ++ toString parallel ++ "p"
  let pack_capacity_ah := cell_ah * (parallel : ℚ) * eol_factor
  { cell_capacity_Ah := round2 cell_ah
    series := series
    parallel := parallel
    total_cells := total_cells
    string_config := string_config
    pack_capacity_Ah := round2 pack_capacity_ah
    eol_factor := round2 eol_factor }

/-- The dict returned by `charge_discharge_limits`. -/
structure ChargeDischargeLimits where
  max_charge_current_A : ℚ
  max_discharge_current_A : ℚ
  eocv_pack_V : ℚ
  eodv_pack_V : ℚ
  c_rate_charge : ℚ
  c_rate_discharge : ℚ
  taper_note : String

/-- `charge_discharge_limits(pack_capacity_ah, series, eocv_per_cell_v,
eodv_per_cell_v, c_rate_charge, c_rate_discharge)`. -/
def charge_discharge_limits (pack_capacity_ah : ℚ) (series : ℤ)
    (eocv_per_cell_v eodv_per_cell_v c_rate_charge c_rate_discharge : ℚ) :
    ChargeDischargeLimits :=
  let max_charge_a := pack_capacity_ah * c_rate_charge
  let max_discharge_a := pack_capacity_ah * c_rate_discharge
  let eocv_pack := eocv_per_cell_v * (series : ℚ)
  let eodv_pack := eodv_per_cell_v * (series : ℚ)
  { max_charge_current_A := round2 max_charge_a
    max_discharge_current_A := round2 max_discharge_a
    eocv_pack_V := round2 eocv_pack
    eodv_pack_V := round2 eodv_pack
    c_rate_charge := round2 c_rate_charge
    c_rate_discharge := round2 c_rate_discharge
    taper_note := "Taper/step charge per mission profile (e.g. constant current then constant voltage to EOCV)." }

/-- `named_requirements(limits)`: the seven labeled requirement strings. -/
def named_requirements (limits : ChargeDischargeLimits) : List String :=
  [ "REQ-BMS-001: Max charge current (A): " ++ fmt limits.max_charge_current_A,
    "REQ-BMS-002: Max discharge current (A): " ++ fmt limits.max_discharge_current_A,
    "REQ-BMS-003: End-of-charge voltage, pack (V): " ++ fmt limits.eocv_pack_V,
    "REQ-BMS-004: End-of-discharge voltage, pack (V): " ++ fmt limits.eodv_pack_V,
    "REQ-BMS-005: Max charge C-rate: " ++ fmt limits.c_rate_charge ++ "C",
    "REQ-BMS-006: Max discharge C-rate: " ++ fmt limits.c_rate_discharge ++ "C",
    "REQ-BMS-007: " ++ limits.taper_note ]

/-- The dict returned by `compute_advanced`. -/
structure AdvancedResult where
  sizing_summary : SizingSummary
  cell_level : CellLevel
  charge_discharge_limits : ChargeDischargeLimits
  named_requirements : List String

/-- `compute_advanced(...)`: runs all advanced steps, threading the
`effective_capacity_Ah` of the sizing summary into `cell_level_outputs`, and
the `pack_capacity_Ah` / `series` outputs of `cell_level_outputs` into
`charge_discharge_limits`. -/
def compute_advanced (base_capacity_wh v_nom pack_loss_pct divergence_pct
    redundancy_n ageing_pct temp_pct anomaly_wh cell_ah : ℚ) (series parallel : ℤ)
    (eol_factor eocv_per_cell_v eodv_per_cell_v c_rate_charge c_rate_discharge : ℚ) :
    AdvancedResult :=
  let sizing := sizing_summary base_capacity_wh v_nom pack_loss_pct divergence_pct
    redundancy_n ageing_pct temp_pct anomaly_wh
  let cell := cell_level_outputs sizing.effective_capacity_Ah cell_ah series parallel eol_factor
  let limits := charge_discharge_limits cell.pack_capacity_Ah cell.series
    eocv_per_cell_v eodv_per_cell_v c_rate_charge c_rate_discharge
  let reqs := named_requirements limits
  { sizing_summary := sizing
    cell_level := cell
    charge_discharge_limits := limits
    named_requirements := reqs }

/-! ## Theorems -/

/-- Rounding to 2 decimals preserves nonnegativity. -/
theorem round2_nonneg {x : ℚ} (h : 0 ≤ x) : 0 ≤ round2 x := by
  unfold round2
  have h1 : (0 : ℤ) ≤ round (100 * x) := by
    rw [round_eq]
    exact Int.floor_nonneg.mpr (by linarith)
  have h2 : (0 : ℚ) ≤ (round (100 * x) : ℤ) := by exact_mod_cast h1
  exact div_nonneg h2 (by norm_num)

/-- C2: `required_usable_capacity_Wh(E, margin, reserve_fraction)` equals
`E * margin` for all arguments, the `reserve_fraction` argument does not
enter the result, and for `margin ≥ 1` and `E ≥ 0` the result is
monotonically non-decreasing in both `E` and `margin`. -/
theorem required_usable_capacity_Wh_formula_mono (E m r : ℚ) :
    required_usable_capacity_Wh E m r = E * m ∧
    (∀ r2, required_usable_capacity_Wh E m r = required_usable_capacity_Wh E m r2) ∧
    (1 ≤ m → 0 ≤ E →
      (∀ E2, E ≤ E2 →
        required_usable_capacity_Wh E m r ≤ required_usable_capacity_Wh E2 m r) ∧
      (∀ m2, m ≤ m2 →
        required_usable_capacity_Wh E m r ≤ required_usable_capacity_Wh E m2 r)) := by
  unfold required_usable_capacity_Wh
  refine ⟨rfl, fun _ => rfl, fun hm hE => ⟨fun E2 h => ?_, fun m2 h => ?_⟩⟩
  · exact mul_le_mul_of_nonneg_right h (le_trans zero_le_one hm)
  · exact mul_le_mul_of_nonneg_left h hE

/-- Witness for C2: the formula and both monotonicity conclusions at the
concrete inputs `E = 6 ≤ 8`, `margin = 2 ≤ 3`, `reserve_fraction = 5`. -/
theorem required_usable_capacity_Wh_formula_mono_witness :
    required_usable_capacity_Wh 6 2 5 = 12 ∧
    required_usable_capacity_Wh 6 2 5 ≤ required_usable_capacity_Wh 8 2 5 ∧
    required_usable_capacity_Wh 6 2 5 ≤ required_usable_capacity_Wh 6 3 5 := by
  obtain ⟨h1, h2, h3⟩ := required_usable_capacity_Wh_formula_mono 6 2 5
  obtain ⟨hE, hm⟩ := h3 (by norm_num) (by norm_num)
  refine ⟨?_, hE 8 (by norm_num), hm 3 (by norm_num)⟩
  rw [h1]; norm_num

/-- C3: `required_usable_capacity_Ah` returns `C_Wh / V_nom` when `V_nom > 0`
and `0` when `V_nom ≤ 0`, and `average_c_rate_during_eclipse` returns
`(P_W / V_nom) / C_usable_Ah` when `V_nom > 0` and `C_usable_Ah > 0` and `0`
when `C_usable_Ah ≤ 0` or `V_nom ≤ 0`; both are total functions of their
rational arguments (the embedding has no exceptional path). -/
theorem division_guard_behavior (C V P cap : ℚ) :
    (0 < V → required_usable_capacity_Ah C V = C / V) ∧
    (V ≤ 0 → required_usable_capacity_Ah C V = 0) ∧
    (0 < V → 0 < cap → average_c_rate_during_eclipse P V cap = (P / V) / cap) ∧
    (cap ≤ 0 ∨ V ≤ 0 → average_c_rate_during_eclipse P V cap = 0) := by
  unfold required_usable_capacity_Ah average_c_rate_during_eclipse
  refine ⟨fun h => ?_, fun h => ?_, fun hV hc => ?_, fun h => ?_⟩
  · rw [if_pos h]
  · rw [if_neg (not_lt.mpr h)]
  · rw [if_neg (by push_neg; exact ⟨hc, hV⟩)]
  · rw [if_pos h]

/-- Witness for C3: both guard branches and both positive branches at
concrete inputs. -/
theorem division_guard_behavior_witness :
    required_usable_capacity_Ah 10 (-2) = 0 ∧
    average_c_rate_during_eclipse 5 (-2) 3 = 0 ∧
    required_usable_capacity_Ah 10 4 = 10 / 4 ∧
    average_c_rate_during_eclipse 5 4 3 = (5 / 4) / 3 := by
  obtain ⟨h1, h2, h3, h4⟩ := division_guard_behavior 10 (-2) 5 3
  obtain ⟨g1, g2, g3, g4⟩ := division_guard_behavior 10 4 5 3
  exact ⟨h2 (by norm_num), h4 (Or.inr (by norm_num)),
    g1 (by norm_num), g3 (by norm_num) (by norm_num)⟩

/-- C4: the `effective_capacity_Wh` reported by `sizing_summary` is the
2-decimal rounding of
`max 0 (base * (1 - pack_loss/100) * (1 - divergence/100) * (1 + redundancy) *
(1 - ageing/100) * (1 - temp/100) - anomaly)`, the five derating factors
applied to the chained (unrounded) value in that order with the anomaly
reserve subtracted last and floored at zero, so the reported effective
capacity is never negative. -/
theorem effective_capacity_reported_formula (b v pl dv rn ag tp an : ℚ) :
    (sizing_summary b v pl dv rn ag tp an).effective_capacity_Wh =
      round2 (max 0 (b * (1 - pl / 100) * (1 - dv / 100) * (1 + rn) *
        (1 - ag / 100) * (1 - tp / 100) - an)) ∧
    0 ≤ (sizing_summary b v pl dv rn ag tp an).effective_capacity_Wh := by
  have hrep : (sizing_summary b v pl dv rn ag tp an).effective_capacity_Wh =
      round2 (effective_capacity_after_anomaly_wh
        (capacity_after_temp_wh
          (capacity_after_ageing_wh
            (capacity_after_redundancy_wh
              (capacity_after_divergence_wh
                (capacity_after_pack_loss_wh b pl) dv) rn) ag) tp) an) := rfl
  have hchain : capacity_after_temp_wh
      (capacity_after_ageing_wh
        (capacity_after_redundancy_wh
          (capacity_after_divergence_wh
            (capacity_after_pack_loss_wh b pl) dv) rn) ag) tp =
      b * (1 - pl / 100) * (1 - dv / 100) * (1 + rn) * (1 - ag / 100) * (1 - tp / 100) := by
    unfold capacity_after_pack_loss_wh capacity_after_divergence_wh
      capacity_after_redundancy_wh capacity_after_ageing_wh capacity_after_temp_wh
    ring
  constructor
  · rw [hrep, effective_capacity_after_anomaly_wh, hchain]
  · rw [hrep]
    exact round2_nonneg (le_max_left 0 _)

/-- C5: for inputs `orbital_period = 90`, `eclipse = 35`, `power = 500`,
`voltage = 28`, the short case produced by `calculate_api` reports
`eclipse_energy_Wh = 291.67`, `required_usable_capacity_Wh = 320.83` (the
unrounded eclipse energy times the short-case margin 1.10),
`required_usable_capacity_Ah = 11.46` and
`average_c_rate_during_eclipse = 1.558`. -/
theorem short_case_example_values :
    (calculate_api 90 35 500 28).short.data.eclipse_energy_Wh = 29167 / 100 ∧
    (calculate_api 90 35 500 28).short.data.required_usable_capacity_Wh =
      round2 (energy_during_eclipse_Wh 500 35 * (11 / 10)) ∧
    (calculate_api 90 35 500 28).short.data.required_usable_capacity_Wh = 32083 / 100 ∧
    (calculate_api 90 35 500 28).short.data.required_usable_capacity_Ah = 1146 / 100 ∧
    (calculate_api 90 35 500 28).short.data.average_c_rate_during_eclipse = 1558 / 1000 := by
  norm_num [calculate_api, build_snippet, snippet_data, energy_during_eclipse_Wh,
    required_usable_capacity_Wh, required_usable_capacity_Ah,
    average_c_rate_during_eclipse, SHORT_LIVED_HIGH_POWER, round2, round3, round_eq]

/-- C1 (amended): in `sizing_summary`, each capacity-derating step's reported
value is the 2-decimal rounding of the exact chained value, but the
*unrounded* output of each step — not the rounded one — is the input of the
next step: every reported field equals `round2` of the exact product of all
factors applied so far. -/
theorem sizing_summary_rounds_report_only (b v pl dv rn ag tp an : ℚ) :
    (sizing_summary b v pl dv rn ag tp an).after_pack_loss_Wh =
      round2 (b * (1 - pl / 100)) ∧
    (sizing_summary b v pl dv rn ag tp an).after_divergence_Wh =
      round2 (b * (1 - pl / 100) * (1 - dv / 100)) ∧
    (sizing_summary b v pl dv rn ag tp an).after_redundancy_Wh =
      round2 (b * (1 - pl / 100) * (1 - dv / 100) * (1 + rn)) ∧
    (sizing_summary b v pl dv rn ag tp an).after_ageing_Wh =
      round2 (b * (1 - pl / 100) * (1 - dv / 100) * (1 + rn) * (1 - ag / 100)) ∧
    (sizing_summary b v pl dv rn ag tp an).after_temp_Wh =
      round2 (b * (1 - pl / 100) * (1 - dv / 100) * (1 + rn) * (1 - ag / 100) *
        (1 - tp / 100)) := by
  unfold sizing_summary capacity_after_pack_loss_wh capacity_after_divergence_wh
    capacity_after_redundancy_wh capacity_after_ageing_wh capacity_after_temp_wh
  exact ⟨rfl, rfl, rfl, rfl, rfl⟩

/-- Counterexample for C1 as stated: at `base_capacity_wh = 10.0669`,
`pack_loss_pct = 0`, `divergence_pct = 3` (and the default remaining
parameters), the reported `after_divergence_Wh` is `9.76` = `round2` of the
unrounded `10.0669 * 0.97`, not `9.77` = `round2` of the rounded reported
`after_pack_loss_Wh = 10.07` times `0.97`: the rounded value is *not* the one
used as input of the next step. -/
theorem sizing_summary_rounded_feed_forward_false :
    (sizing_summary (100669 / 10000) 28 0 3 1 10 5 20).after_divergence_Wh ≠
      round2 (capacity_after_divergence_wh
        ((sizing_summary (100669 / 10000) 28 0 3 1 10 5 20).after_pack_loss_Wh) 3) := by
  norm_num [sizing_summary, capacity_after_pack_loss_wh, capacity_after_divergence_wh,
    round2, round_eq]

/-- C6 (amended): in `cell_level_outputs`, `series` and `parallel` are
floored at 1, `total_cells` is their product, and the reported
`pack_capacity_Ah` is `cell_ah * parallel * eol_factor` rounded to 2 decimals
— independent of the `effective_capacity_ah` argument and of `series`; the
concrete example `cell_Ah = 5, series = 8, parallel = 2, eol_factor = 0.8`
yields `total_cells = 16`, `string_config = "8s × 2p"`, `pack_capacity_Ah = 8`. -/
theorem cell_level_outputs_spec (eff eff2 cell : ℚ) (s p : ℤ) (eol : ℚ) :
    (cell_level_outputs eff cell s p eol).series = max 1 s ∧
    (cell_level_outputs eff cell s p eol).parallel = max 1 p ∧
    (cell_level_outputs eff cell s p eol).total_cells = max 1 s * max 1 p ∧
    (cell_level_outputs eff cell s p eol).pack_capacity_Ah =
      round2 (cell * ((max 1 p : ℤ) : ℚ) * eol) ∧
    cell_level_outputs eff cell s p eol = cell_level_outputs eff2 cell s p eol ∧
    (∀ s2 : ℤ, (cell_level_outputs eff cell s2 p eol).pack_capacity_Ah =
      (cell_level_outputs eff cell s p eol).pack_capacity_Ah) ∧
    (cell_level_outputs 0 5 8 2 (8 / 10)).total_cells = 16 ∧
    (cell_level_outputs 0 5 8 2 (8 / 10)).string_config = "8s × 2p" ∧
    (cell_level_outputs 0 5 8 2 (8 / 10)).pack_capacity_Ah = 8 := by
  refine ⟨rfl, rfl, rfl, rfl, rfl, fun s2 => rfl, rfl, by decide, ?_⟩
  norm_num [cell_level_outputs, round2, round_eq]

/-- Counterexample for C6 as stated: at `cell_ah = 5`, `parallel = 1`,
`eol_factor = 0.8123`, the reported `pack_capacity_Ah` is the rounded `4.06`,
not the exact product `5 * 1 * 0.8123 = 4.0615` the claim asserts. -/
theorem cell_level_pack_capacity_unrounded_false :
    (cell_level_outputs 0 5 1 1 (8123 / 10000)).pack_capacity_Ah ≠
      5 * 1 * (8123 / 10000) := by
  norm_num [cell_level_outputs, round2, round_eq]

/-- C7: `charge_discharge_limits` reports
`max_charge_current_A = pack_capacity_ah * c_rate_charge`,
`max_discharge_current_A = pack_capacity_ah * c_rate_discharge`,
`eocv_pack_V = eocv_per_cell_v * series` and
`eodv_pack_V = eodv_per_cell_v * series`, each rounded to 2 decimals; the
concrete example `pack_capacity_Ah = 8, series = 8, c_rate_charge = 0.5,
c_rate_discharge = 2, EOCV_per_cell = 4.2, EODV_per_cell = 3` yields
`max_charge_A = 4`, `max_discharge_A = 16`, `EOCV_pack = 33.6`,
`EODV_pack = 24`. -/
theorem charge_discharge_limits_spec (pack : ℚ) (s : ℤ) (eocv eodv crc crd : ℚ) :
    (charge_discharge_limits pack s eocv eodv crc crd).max_charge_current_A =
      round2 (pack * crc) ∧
    (charge_discharge_limits pack s eocv eodv crc crd).max_discharge_current_A =
      round2 (pack * crd) ∧
    (charge_discharge_limits pack s eocv eodv crc crd).eocv_pack_V =
      round2 (eocv * (s : ℚ)) ∧
    (charge_discharge_limits pack s eocv eodv crc crd).eodv_pack_V =
      round2 (eodv * (s : ℚ)) ∧
    (charge_discharge_limits 8 8 (42 / 10) 3 (1 / 2) 2).max_charge_current_A = 4 ∧
    (charge_discharge_limits 8 8 (42 / 10) 3 (1 / 2) 2).max_discharge_current_A = 16 ∧
    (charge_discharge_limits 8 8 (42 / 10) 3 (1 / 2) 2).eocv_pack_V = 336 / 10 ∧
    (charge_discharge_limits 8 8 (42 / 10) 3 (1 / 2) 2).eodv_pack_V = 24 := by
  refine ⟨rfl, rfl, rfl, rfl, ?_, ?_, ?_, ?_⟩ <;>
    norm_num [charge_discharge_limits, round2, round_eq]

/-- C8: `named_requirements` returns exactly 7 strings, the i-th beginning
with the fixed prefix `REQ-BMS-00i:` in order 001 through 007, each embedding
exactly one field of the limits record verbatim with no numeric computation
(the full list is the fixed prefixes concatenated with the rendered fields). -/
theorem named_requirements_shape (l : ChargeDischargeLimits) :
    (named_requirements l).length = 7 ∧
    (∃ r1 r2 r3 r4 r5 r6 r7 : String,
      named_requirements l =
        [ "REQ-BMS-001: " ++ r1, "REQ-BMS-002: " ++ r2, "REQ-BMS-003: " ++ r3,
          "REQ-BMS-004: " ++ r4, "REQ-BMS-005: " ++ r5, "REQ-BMS-006: " ++ r6,
          "REQ-BMS-007: " ++ r7 ]) ∧
    named_requirements l =
      [ "REQ-BMS-001: Max charge current (A): " ++ fmt l.max_charge_current_A,
        "REQ-BMS-002: Max discharge current (A): " ++ fmt l.max_discharge_current_A,
        "REQ-BMS-003: End-of-charge voltage, pack (V): " ++ fmt l.eocv_pack_V,
        "REQ-BMS-004: End-of-discharge voltage, pack (V): " ++ fmt l.eodv_pack_V,
        "REQ-BMS-005: Max charge C-rate: " ++ fmt l.c_rate_charge ++ "C",
        "REQ-BMS-006: Max discharge C-rate: " ++ fmt l.c_rate_discharge ++ "C",
        "REQ-BMS-007: " ++ l.taper_note ] := by
  refine ⟨rfl, ?_, rfl⟩
  refine ⟨"Max charge current (A): " ++ fmt l.max_charge_current_A,
    "Max discharge current (A): " ++ fmt l.max_discharge_current_A,
    "End-of-charge voltage, pack (V): " ++ fmt l.eocv_pack_V,
    "End-of-discharge voltage, pack (V): " ++ fmt l.eodv_pack_V,
    "Max charge C-rate: " ++ fmt l.c_rate_charge ++ "C",
    "Max discharge C-rate: " ++ fmt l.c_rate_discharge ++ "C",
    l.taper_note, ?_⟩
  rfl

/-- C9: two calls to `compute_advanced` that agree on `cell_ah`, `series`,
`parallel`, `eol_factor`, `eocv_per_cell_v`, `eodv_per_cell_v`,
`c_rate_charge` and `c_rate_discharge` but differ arbitrarily in
`base_capacity_wh`, `v_nom`, `pack_loss_pct`, `divergence_pct`,
`redundancy_n`, `ageing_pct`, `temp_pct` and `anomaly_wh` return identical
`cell_level`, `charge_discharge_limits` and `named_requirements` fields: the
sizing computation influences only the `sizing_summary` field. -/
theorem compute_advanced_sizing_noninterference
    (b1 v1 pl1 dv1 rn1 ag1 tp1 an1 b2 v2 pl2 dv2 rn2 ag2 tp2 an2 cell : ℚ)
    (s p : ℤ) (eol eocv eodv crc crd : ℚ) :
    (compute_advanced b1 v1 pl1 dv1 rn1 ag1 tp1 an1 cell s p eol
        eocv eodv crc crd).cell_level =
      (compute_advanced b2 v2 pl2 dv2 rn2 ag2 tp2 an2 cell s p eol
        eocv eodv crc crd).cell_level ∧
    (compute_advanced b1 v1 pl1 dv1 rn1 ag1 tp1 an1 cell s p eol
        eocv eodv crc crd).charge_discharge_limits =
      (compute_advanced b2 v2 pl2 dv2 rn2 ag2 tp2 an2 cell s p eol
        eocv eodv crc crd).charge_discharge_limits ∧
    (compute_advanced b1 v1 pl1 dv1 rn1 ag1 tp1 an1 cell s p eol
        eocv eodv crc crd).named_requirements =
      (compute_advanced b2 v2 pl2 dv2 rn2 ag2 tp2 an2 cell s p eol
        eocv eodv crc crd).named_requirements := by
  exact ⟨rfl, rfl, rfl⟩

/-- C10: two calls to `calculate_api` that differ only in
`orbital_period_min` agree on every derived numeric field of both returned
snippets — the data records are equal up to replacing the echoed `inputs`
field — and the rendered `snippet_md` and `snippet_json` texts are the
renderings of the other run's data with only the `inputs` field swapped, so
`orbital_period_min` enters no computation and shows up only through the
echoed inputs. -/
theorem calculate_api_orbital_noninterference (o o2 e p v : ℚ) :
    (calculate_api o e p v).short.data =
      { (calculate_api o2 e p v).short.data with inputs := ⟨o, e, p, v⟩ } ∧
    (calculate_api o e p v).long.data =
      { (calculate_api o2 e p v).long.data with inputs := ⟨o, e, p, v⟩ } ∧
    (calculate_api o e p v).short.snippet_md =
      format_markdown { (calculate_api o2 e p v).short.data with inputs := ⟨o, e, p, v⟩ } ∧
    (calculate_api o e p v).long.snippet_md =
      format_markdown { (calculate_api o2 e p v).long.data with inputs := ⟨o, e, p, v⟩ } ∧
    (build_snippet ⟨o, e, p, v⟩ SHORT_LIVED_HIGH_POWER).snippet_json =
      snippet_json_text { (calculate_api o2 e p v).short.data with inputs := ⟨o, e, p, v⟩ } ∧
    (build_snippet ⟨o, e, p, v⟩ LONG_LIVED_LOW_POWER).snippet_json =
      snippet_json_text { (calculate_api o2 e p v).long.data with inputs := ⟨o, e, p, v⟩ } := by
  exact ⟨rfl, rfl, rfl, rfl, rfl, rfl⟩

end BMS
